import Mathlib

/-!
Shallow embedding of the health-monitor simulator
(`health_monitor/main_simulator.py` and `health_monitor/app.py`).

Conventions of the embedding:
* Machine integers are `Int`; timestamps are `Nat` seconds since an epoch,
  with `DATE(timestamp)` modelled as `timestamp / 86400` (the day index).
* Python floats produced by `random.uniform` and trend arithmetic are
  modelled as exact rationals (`Rat`); `int(x)` is truncation toward zero.
* Every random draw of the Python code becomes an explicit parameter
  (the drawn value), so the functions are deterministic in their inputs.
* Console printing and sleeping are side effects with no state, and are
  dropped; GPIO LED outputs are kept as the boolean `LedState`.
* sqlite is modelled as an in-memory append-only list of rows plus the
  next AUTOINCREMENT id; a potential failure of the backing medium is the
  `storage_fails` flag, and fallible operations return `Except StorageError`.
-/

namespace HealthMonitor

/-- Health thresholds, constants of the process (`HR_MIN`/`HR_MAX`/`SPO2_MIN`). -/
def HR_MIN : Int := 60

/-- Upper heart-rate threshold. -/
def HR_MAX : Int := 100

/-- Lower spo2 threshold. -/
def SPO2_MIN : Int := 95

/-- Classification status, the `status` strings "Normal" / "Alert". -/
inductive Status where
  | Normal : Status
  | Alert : Status
deriving DecidableEq, Repr

/-- One row of the `readings` table: id (AUTOINCREMENT), timestamp
(CURRENT_TIMESTAMP at insert), heart_rate, spo2, status. -/
structure Reading where
  id : Nat
  timestamp : Nat
  heart_rate : Int
  spo2 : Int
  status : Status
deriving DecidableEq, Repr

/-- The two LEDs (pin 17 red, pin 27 green); `false` = off, the state set
by `GPIO.setup`. -/
structure LedState where
  red : Bool
  green : Bool
deriving DecidableEq, Repr

/-- Python `max(lo, min(hi, x))` on rationals. -/
def clampQ (lo hi x : Rat) : Rat := max lo (min hi x)

/-- Python `int(x)`: truncation toward zero (`Int.tdiv` is T-division). -/
def truncInt (q : Rat) : Int := Int.tdiv q.num (q.den : Int)

/-- State of `SimulatedSensor`: `base_hr`, `base_spo2`, `hr_trend`,
`spo2_trend` (the constructor sets 75, 98, 0, 0). -/
structure SimulatedSensor where
  base_hr : Rat
  base_spo2 : Rat
  hr_trend : Rat
  spo2_trend : Rat
deriving DecidableEq, Repr

/-- The random draws consumed by one `SimulatedSensor.read` call:
`d_hr = random.uniform(-0.5, 0.5)`, `d_spo2 = random.uniform(-0.2, 0.2)`,
`j_hr = random.randint(-3, 3)`, `j_spo2 = random.randint(-1, 1)`. -/
structure SensorRand where
  d_hr : Rat
  d_spo2 : Rat
  j_hr : Int
  j_spo2 : Int
deriving DecidableEq, Repr

/-- `SimulatedSensor.read`: nudge and clamp the trends, add jitter,
truncate to int, clamp hr to [50,130] and spo2 to [90,100]; returns the
updated sensor state and the (hr, spo2) pair. -/
def SimulatedSensor.read (s : SimulatedSensor) (r : SensorRand) :
    SimulatedSensor × Int × Int :=
  let hr_trend := clampQ (-5) 5 (s.hr_trend + r.d_hr)
  let spo2_trend := clampQ (-2) 2 (s.spo2_trend + r.d_spo2)
  let hr0 := truncInt (s.base_hr + hr_trend + (r.j_hr : Rat))
  let spo20 := truncInt (s.base_spo2 + spo2_trend + (r.j_spo2 : Rat))
  let hr := max 50 (min 130 hr0)
  let spo2 := max 90 (min 100 spo20)
  ({ s with hr_trend := hr_trend, spo2_trend := spo2_trend }, hr, spo2)

/-- The three activity levels of `SimulatedSensor.simulate_activity`. -/
inductive Activity where
  | rest : Activity
  | normal : Activity
  | active : Activity
deriving DecidableEq, Repr

/-- The `random.randint` bounds used by `simulate_activity` for each
activity level. -/
def activityRange : Activity → Int × Int
  | .rest => (60, 70)
  | .normal => (70, 85)
  | .active => (85, 110)

/-- `SimulatedSensor.simulate_activity`: re-centre `base_hr` at a drawn
value `b` (= `random.randint` over `activityRange a`). -/
def SimulatedSensor.simulate_activity (s : SimulatedSensor) (a : Activity)
    (b : Int) : SimulatedSensor :=
  match a with
  | .rest => { s with base_hr := (b : Rat) }
  | .normal => { s with base_hr := (b : Rat) }
  | .active => { s with base_hr := (b : Rat) }

/-- The sqlite backing medium being unavailable (e.g. disk full). -/
inductive StorageError where
  | unavailable : StorageError
deriving DecidableEq, Repr

/-- `HealthMonitor` instance state: LEDs, sensor, the `current_*`
snapshot, the `running`/`button_pressed` flags, the `reading_count` and
`alert_count` counters, and the sqlite contents (`db`, `next_id`).
`storage_fails` models the backing medium being unavailable. -/
structure MonitorState where
  leds : LedState
  sensor : SimulatedSensor
  current_hr : Int
  current_spo2 : Int
  current_status : Status
  button_pressed : Bool
  reading_count : Nat
  alert_count : Nat
  db : List Reading
  next_id : Nat
  storage_fails : Bool
deriving DecidableEq, Repr

/-- The state after `HealthMonitor.__init__`: LEDs off, fresh sensor,
current 75/98/"Normal", counters 0, empty table with AUTOINCREMENT
starting at 1. -/
def initState (storage_fails : Bool) : MonitorState :=
  { leds := ⟨false, false⟩
  , sensor := ⟨75, 98, 0, 0⟩
  , current_hr := 75
  , current_spo2 := 98
  , current_status := .Normal
  , button_pressed := false
  , reading_count := 0
  , alert_count := 0
  , db := []
  , next_id := 1
  , storage_fails := storage_fails }

/-- `HealthMonitor.read_sensors`: read the sensor and store the pair in
`current_hr` / `current_spo2`. -/
def read_sensors (s : MonitorState) (r : SensorRand) :
    MonitorState × Int × Int :=
  let (sen, hr, spo2) := s.sensor.read r
  ({ s with sensor := sen, current_hr := hr, current_spo2 := spo2 }, hr, spo2)

/-- `HealthMonitor.check_vitals`: "Normal" iff
`HR_MIN <= hr <= HR_MAX and spo2 >= SPO2_MIN`; sets the green LED on and
red off on Normal, red on and green off (and bumps `alert_count`) on
Alert; records the status in `current_status` and returns it. -/
def check_vitals (s : MonitorState) (hr spo2 : Int) : MonitorState × Status :=
  if HR_MIN ≤ hr ∧ hr ≤ HR_MAX ∧ SPO2_MIN ≤ spo2 then
    ({ s with leds := ⟨false, true⟩, current_status := .Normal }, .Normal)
  else
    ({ s with
        leds := ⟨true, false⟩,
        current_status := .Alert,
        alert_count := s.alert_count + 1 }, .Alert)

/-- `HealthMonitor.save_to_database`: INSERT the reading (sqlite assigns
the AUTOINCREMENT id and CURRENT_TIMESTAMP `ts`), commit, bump
`reading_count`; raises `StorageError` when the medium is unavailable. -/
def save_to_database (s : MonitorState) (ts : Nat) (hr spo2 : Int)
    (st : Status) : Except StorageError MonitorState :=
  if s.storage_fails then .error .unavailable
  else .ok { s with
              db := s.db ++ [⟨s.next_id, ts, hr, spo2, st⟩],
              next_id := s.next_id + 1,
              reading_count := s.reading_count + 1 }

/-- `HealthMonitor.send_to_cloud`: print, sleep 0.5s, then one draw
`netRand = random.random()`; success iff `netRand > 0.1` (the 90% branch).
Touches no instance state, returns the boolean, never raises, and makes
exactly this one trial (no retry). -/
def send_to_cloud (s : MonitorState) (netRand : Rat) (hr spo2 : Int) :
    MonitorState × Bool :=
  (s, decide ((1 : Rat)/10 < netRand))

/-- Observable effects of a manual-trigger cycle: one sensor sample, one
database insert, one cloud send, one acknowledgement flash. -/
inductive Action where
  | sampleAct : Action
  | persistAct : Action
  | uplinkAct : Action
  | flashAct : Action
deriving DecidableEq, Repr

/-- Number of cloud sends in a list of observed actions. -/
def countUplinks (l : List Action) : Nat :=
  (l.filter (fun a => a = Action.uplinkAct)).length

/-- The acknowledgement flash of `button_callback`: three on/off green-LED
blinks; its last GPIO write is `GPIO.output(GREEN_LED, False)`, so it
leaves the green LED off and the red LED untouched. -/
def flash_green (s : MonitorState) : MonitorState :=
  { s with leds := { s.leds with green := false } }

/-- `HealthMonitor.button_callback`: if `button_pressed` is already set the
firing is ignored (no effect, no actions); otherwise set the flag, read
sensors, classify, save, send to cloud (flash green on success), reset the
flag.  A `StorageError` raised by the INSERT propagates out (there is no
handler), modelled by `.error`.  `ts` is the CURRENT_TIMESTAMP of the
insert; `r` and `netRand` are the random draws consumed. -/
def button_callback (s : MonitorState) (r : SensorRand) (netRand : Rat)
    (ts : Nat) : Except StorageError (MonitorState × List Action) :=
  if s.button_pressed then .ok (s, [])
  else
    let s1 := { s with button_pressed := true }
    let (s2, hr, spo2) := read_sensors s1 r
    let (s3, st) := check_vitals s2 hr spo2
    match save_to_database s3 ts hr spo2 st with
    | .error e => .error e
    | .ok s4 =>
      let (s5, ok) := send_to_cloud s4 netRand hr spo2
      let s6 := if ok then flash_green s5 else s5
      .ok ({ s6 with button_pressed := false },
           [.sampleAct, .persistAct, .uplinkAct]
             ++ (if ok then [.flashAct] else []))

/-- The successive engine states of one `button_callback` invocation, one
entry per completed statement of the Python method (after setting the
flag, after `read_sensors`, after `check_vitals`, after
`save_to_database`, after `send_to_cloud`, after the flash, after
resetting the flag).  An ignored firing leaves the state untouched; a
`StorageError` aborts the cycle after the third step, leaving
`button_pressed` set. -/
def button_cycle_trace (s : MonitorState) (r : SensorRand) (netRand : Rat)
    (ts : Nat) : List MonitorState :=
  if s.button_pressed then [s]
  else
    let s1 := { s with button_pressed := true }
    let (s2, hr, spo2) := read_sensors s1 r
    let (s3, st) := check_vitals s2 hr spo2
    match save_to_database s3 ts hr spo2 st with
    | .error _ => [s1, s2, s3]
    | .ok s4 =>
      let (s5, ok) := send_to_cloud s4 netRand hr spo2
      let s6 := if ok then flash_green s5 else s5
      [s1, s2, s3, s4, s5, s6, { s6 with button_pressed := false }]

/-- `DATE(timestamp) = DATE('now')`: rows whose timestamp falls on the
current day (`today` is the day index, a timestamp's day is
`timestamp / 86400`). -/
def todays (db : List Reading) (today : Nat) : List Reading :=
  db.filter (fun row => row.timestamp / 86400 = today)

/-- SQL `AVG` over a column: NULL (`none`) on no rows, else the rational
mean. -/
def sqlAvg (xs : List Int) : Option Rat :=
  if xs.isEmpty then none else some ((xs.sum : Rat) / (xs.length : Rat))

/-- SQL `MIN` over a column: NULL on no rows. -/
def sqlMin (xs : List Int) : Option Int := xs.min?

/-- SQL `MAX` over a column: NULL on no rows. -/
def sqlMax (xs : List Int) : Option Int := xs.max?

/-- The row returned by the aggregate SELECT of `daily_summary`:
`AVG(heart_rate), AVG(spo2), COUNT(*), MIN(heart_rate), MAX(heart_rate),
MIN(spo2), MAX(spo2)` over today's readings. -/
structure AggRow where
  avg_hr : Option Rat
  avg_spo2 : Option Rat
  count : Nat
  min_hr : Option Int
  max_hr : Option Int
  min_spo2 : Option Int
  max_spo2 : Option Int
deriving DecidableEq, Repr

/-- The aggregate SELECT of `daily_summary` evaluated over the store. -/
def daily_agg (db : List Reading) (today : Nat) : AggRow :=
  let rows := todays db today
  { avg_hr := sqlAvg (rows.map (·.heart_rate))
  , avg_spo2 := sqlAvg (rows.map (·.spo2))
  , count := rows.length
  , min_hr := sqlMin (rows.map (·.heart_rate))
  , max_hr := sqlMax (rows.map (·.heart_rate))
  , min_spo2 := sqlMin (rows.map (·.spo2))
  , max_spo2 := sqlMax (rows.map (·.spo2)) }

/-- What one `daily_summary` call did: how many cloud sends it made and
which alert count it printed (`none` when the summary block was skipped).
The printed count is `self.alert_count`, the in-memory counter. -/
structure SummaryOut where
  uplink_calls : Nat
  reported_alerts : Option Nat
deriving DecidableEq, Repr

/-- `HealthMonitor.daily_summary`: run the aggregate SELECT over today's
rows (raising `StorageError` when the medium is unavailable); when the
row count is positive, print the summary — including `self.alert_count`
as "Alerts Today" — and call `send_to_cloud(int(avg_hr), int(avg_spo2))`
once; otherwise do nothing. -/
def daily_summary (s : MonitorState) (today : Nat) (netRand : Rat) :
    Except StorageError (MonitorState × SummaryOut) :=
  if s.storage_fails then .error .unavailable
  else
    let row := daily_agg s.db today
    if 0 < row.count then
      let avg_hr := truncInt (row.avg_hr.getD 0)
      let avg_spo2 := truncInt (row.avg_spo2.getD 0)
      let (s1, _ok) := send_to_cloud s netRand avg_hr avg_spo2
      .ok (s1, { uplink_calls := 1, reported_alerts := some s.alert_count })
    else .ok (s, { uplink_calls := 0, reported_alerts := none })

/-- One SamplingTick of `monitor_loop` (the once-per-second branch):
`read_sensors` then `check_vitals`; the loop never saves these readings
to the database. -/
def sampling_step (s : MonitorState) (r : SensorRand) : MonitorState :=
  let (s1, hr, spo2) := read_sensors s r
  (check_vitals s1 hr spo2).1

/-- Inputs of one iteration of `monitor_loop`: the sensor draws, whether
the 60-second summary cadence fired, the current day index, and the
uplink draw a fired summary would consume. -/
structure TickInput where
  rand : SensorRand
  doSummary : Bool
  today : Nat
  netRand : Rat
deriving DecidableEq, Repr

/-- One iteration of `monitor_loop`: a SamplingTick, then (when the
60-second cadence has elapsed) `daily_summary`.  A `StorageError` raised
by the summary's SELECT propagates: `monitor_loop` has no handler. -/
def monitor_tick (s : MonitorState) (t : TickInput) :
    Except StorageError MonitorState :=
  let s1 := sampling_step s t.rand
  if t.doSummary then
    match daily_summary s1 t.today t.netRand with
    | .error e => .error e
    | .ok (s2, _) => .ok s2
  else .ok s1

/-- `monitor_loop` run over a list of tick inputs: an uncaught
`StorageError` terminates the loop (the remaining ticks never run —
`run` catches only KeyboardInterrupt). -/
def monitor_run (s : MonitorState) : List TickInput →
    Except StorageError MonitorState
  | [] => .ok s
  | t :: rest =>
    match monitor_tick s t with
    | .error e => .error e
    | .ok s1 => monitor_run s1 rest

/-- The `ORDER BY timestamp DESC` ordering on rows. -/
def tsDesc (a b : Reading) : Prop := b.timestamp ≤ a.timestamp

instance : DecidableRel tsDesc :=
  fun a b => inferInstanceAs (Decidable (b.timestamp ≤ a.timestamp))

instance : IsTotal Reading tsDesc :=
  ⟨fun a b => Nat.le_total b.timestamp a.timestamp⟩

instance : IsTrans Reading tsDesc :=
  ⟨fun _ _ _ hab hbc => Nat.le_trans hbc hab⟩

/-- The `WHERE timestamp > datetime('now', '-hours hours')` row filter:
a strict lower bound, no upper bound. -/
def inWindow (now hours : Nat) (row : Reading) : Bool :=
  decide ((now : Int) - (hours : Int) * 3600 < (row.timestamp : Int))

/-- `HealthMonitor.get_recent_data`: rows of the last `hours` hours,
`ORDER BY timestamp DESC LIMIT 100` — most recent first. -/
def get_recent_data (db : List Reading) (now : Nat) (hours : Nat) :
    List Reading :=
  ((db.filter (inWindow now hours)).insertionSort tsDesc).take 100

/-- `app.get_history` (the `/api/history` route): the same
`ORDER BY timestamp DESC LIMIT limit` query, then `data.reverse()` for
chronological order. -/
def get_history (db : List Reading) (now : Nat) (hours limit : Nat) :
    List Reading :=
  (((db.filter (inWindow now hours)).insertionSort tsDesc).take limit).reverse

/-- Python `round(q, 1)` on an exact value: round to the nearest tenth,
ties to even (binary floating-point representation error is abstracted
away; the claims below only evaluate this at exact values). -/
def roundHalfEven (q : Rat) : Int :=
  if q - (⌊q⌋ : Rat) < 1/2 then ⌊q⌋
  else if (1 : Rat)/2 < q - (⌊q⌋ : Rat) then ⌊q⌋ + 1
  else if ⌊q⌋ % 2 = 0 then ⌊q⌋ else ⌊q⌋ + 1

/-- Round to one decimal place (`round(x, 1)`). -/
def round1 (q : Rat) : Rat := ((roundHalfEven (q * 10) : Int) : Rat) / 10

/-- The `today` object of `/api/statistics`: COUNT, AVG/MIN/MAX of both
columns, and `SUM(CASE WHEN status = 'Alert' THEN 1 ELSE 0 END)`, each
NULL coalesced to 0 by the `or 0` in the route. -/
structure TodayStats where
  total_readings : Nat
  avg_hr : Rat
  min_hr : Int
  max_hr : Int
  avg_spo2 : Rat
  min_spo2 : Int
  max_spo2 : Int
  alert_count : Nat
deriving DecidableEq, Repr

/-- The `all_time` object of `/api/statistics`. -/
structure AllTimeStats where
  total_readings : Nat
  avg_hr : Rat
  avg_spo2 : Rat
deriving DecidableEq, Repr

/-- The JSON returned by `/api/statistics`. -/
structure Stats where
  today : TodayStats
  all_time : AllTimeStats
deriving DecidableEq, Repr

/-- `app.get_statistics` (the `/api/statistics` route): today's aggregate
row (SQL aggregates are NULL over no rows; the route maps NULL to 0 via
`or 0` and rounds averages to one decimal), plus the all-time count and
averages. -/
def get_statistics (db : List Reading) (today : Nat) : Stats :=
  let rows := todays db today
  let alertSum : Option Nat :=
    if rows.isEmpty then none
    else some ((rows.filter (fun row => decide (row.status = Status.Alert))).length)
  { today :=
    { total_readings := rows.length
    , avg_hr := round1 ((sqlAvg (rows.map (·.heart_rate))).getD 0)
    , min_hr := (sqlMin (rows.map (·.heart_rate))).getD 0
    , max_hr := (sqlMax (rows.map (·.heart_rate))).getD 0
    , avg_spo2 := round1 ((sqlAvg (rows.map (·.spo2))).getD 0)
    , min_spo2 := (sqlMin (rows.map (·.spo2))).getD 0
    , max_spo2 := (sqlMax (rows.map (·.spo2))).getD 0
    , alert_count := alertSum.getD 0 }
  , all_time :=
    { total_readings := db.length
    , avg_hr := round1 ((sqlAvg (db.map (·.heart_rate))).getD 0)
    , avg_spo2 := round1 ((sqlAvg (db.map (·.spo2))).getD 0) } }

/-- The alert count of a summary window as the spec describes it: derived
from the store, the number of Alert rows in the window. -/
def storeAlertCount (db : List Reading) (today : Nat) : Nat :=
  ((todays db today).filter (fun row => decide (row.status = Status.Alert))).length

/-- Decidable equality of `Except` results, for evaluating fallible
operations on concrete inputs. -/
instance exceptDecEq {e a : Type} [DecidableEq e] [DecidableEq a] :
    DecidableEq (Except e a) := fun x y =>
  match x, y with
  | .error u, .error v =>
    if h : u = v then .isTrue (by rw [h]) else .isFalse (by simp [h])
  | .ok u, .ok v =>
    if h : u = v then .isTrue (by rw [h]) else .isFalse (by simp [h])
  | .error _, .ok _ => .isFalse (by simp)
  | .ok _, .error _ => .isFalse (by simp)

/-- The engine state a `button_callback` run returns, with a fallback for
the error case (used to chain concrete scenarios). -/
def cycleState (d : MonitorState) :
    Except StorageError (MonitorState × List Action) → MonitorState
  | .ok (s2, _) => s2
  | .error _ => d

/-- How many cloud sends a `daily_summary` result made (`none` when the
SELECT raised). -/
def summaryUplinks : Except StorageError (MonitorState × SummaryOut) → Option Nat
  | .ok (_, o) => some o.uplink_calls
  | .error _ => none

/-- The alert count a `daily_summary` result printed (`none` when the
SELECT raised; `some none` when the summary block was skipped). -/
def summaryReported :
    Except StorageError (MonitorState × SummaryOut) → Option (Option Nat)
  | .ok (_, o) => some o.reported_alerts
  | .error _ => none

/-- Number of occurrences of one row in a query result. -/
def countRow (x : Reading) (l : List Reading) : Nat :=
  (l.filter (fun y => decide (y = x))).length

/-- The engine state at the end of the concrete manual cycle used to
instantiate the manual-cycle theorems: one successful Normal cycle from
the initial state. -/
def ackEndState : MonitorState :=
  { leds := ⟨false, false⟩
  , sensor := ⟨75, 98, 0, 0⟩
  , current_hr := 75
  , current_spo2 := 98
  , current_status := .Normal
  , button_pressed := false
  , reading_count := 1
  , alert_count := 0
  , db := [⟨1, 5, 75, 98, .Normal⟩]
  , next_id := 2
  , storage_fails := false }

/-- A concrete store with two readings at distinct timestamps (both
inside a 1-hour window at `now = 200`). -/
def twoRowStore : List Reading :=
  [⟨1, 100, 70, 98, .Normal⟩, ⟨2, 200, 72, 97, .Normal⟩]

/-- A concrete store with one reading exactly at `now - 1 hour`
(`now = 7200`, timestamp 3600). -/
def boundaryStore : List Reading :=
  [⟨1, 3600, 70, 98, .Normal⟩]

/-- A concrete reachable engine state: from the initial state, one
successful manual cycle (Normal reading, persisted), then an activity
shift to `base_hr = 110`, then one periodic SamplingTick whose reading
(hr 110) classifies Alert but — like every periodic reading — is never
persisted.  Its store holds one Normal row while `alert_count = 1`. -/
def driftedState : MonitorState :=
  let s1 := cycleState (initState false)
    (button_callback (initState false) ⟨0, 0, 0, 0⟩ 1 5)
  let s2 := { s1 with sensor := s1.sensor.simulate_activity .active 110 }
  sampling_step s2 ⟨0, 0, 0, 0⟩

/-- C1: for every heart-rate value and spo2 value (and any engine state),
`check_vitals` returns Normal iff `HR_MIN ≤ hr ≤ HR_MAX` and
`spo2 ≥ SPO2_MIN`, and returns Alert otherwise; the configured window is
hrMin = 60, hrMax = 100, spo2Min = 95. -/
theorem c1_check_vitals_normal_iff (s : MonitorState) (hr spo2 : Int) :
    ((check_vitals s hr spo2).2 = Status.Normal ↔
      HR_MIN ≤ hr ∧ hr ≤ HR_MAX ∧ SPO2_MIN ≤ spo2)
    ∧ ((check_vitals s hr spo2).2 = Status.Alert ↔
      ¬(HR_MIN ≤ hr ∧ hr ≤ HR_MAX ∧ SPO2_MIN ≤ spo2))
    ∧ HR_MIN = 60 ∧ HR_MAX = 100 ∧ SPO2_MIN = 95 := by
  unfold check_vitals HR_MIN HR_MAX SPO2_MIN
  split_ifs with h <;> simp [h]

/-- C9: for every sensor state (hence after any sequence of prior `read` /
`simulate_activity` calls, however the baseline was re-centred) and every
random draw, `SimulatedSensor.read` yields a heart rate in [50, 130] and
an spo2 in [90, 100]; the function is total, so the call never fails. -/
theorem c9_sensor_read_bounds (s : SimulatedSensor) (r : SensorRand) :
    50 ≤ (s.read r).2.1 ∧ (s.read r).2.1 ≤ 130 ∧
    90 ≤ (s.read r).2.2 ∧ (s.read r).2.2 ≤ 100 := by
  unfold SimulatedSensor.read
  refine ⟨le_max_left _ _, max_le (by norm_num) (min_le_left _ _),
    le_max_left _ _, max_le (by norm_num) (min_le_left _ _)⟩

/-- C4: `send_to_cloud` returns a boolean decided by its single random
draw (so a failure is final — there is no retry), leaves the whole engine
state — in particular `current_hr`, `current_spo2`, `current_status` —
unchanged, and returns `false` exactly when the draw fails the 90%
threshold.  The function is total, so the call never raises. -/
theorem c4_send_to_cloud_no_effect (s : MonitorState) (q : Rat)
    (hr spo2 : Int) :
    (send_to_cloud s q hr spo2).1 = s
    ∧ (send_to_cloud s q hr spo2).1.current_hr = s.current_hr
    ∧ (send_to_cloud s q hr spo2).1.current_spo2 = s.current_spo2
    ∧ (send_to_cloud s q hr spo2).1.current_status = s.current_status
    ∧ ((send_to_cloud s q hr spo2).2 = false ↔ q ≤ 1/10)
    ∧ ((send_to_cloud s q hr spo2).2 = true ↔ (1 : Rat)/10 < q) := by
  refine ⟨rfl, rfl, rfl, rfl, ?_, ?_⟩ <;>
    simp [send_to_cloud, not_lt]

/-- C2: `button_pressed` is true at every intermediate point of a
manual-trigger cycle and false once the cycle completes, and a firing
that arrives while a prior cycle is in flight (`button_pressed = true`)
is ignored: it returns the state unchanged and performs no sample, no
persist, no uplink (empty action list).  All firings are issued
sequentially by the `simulate_button_press` thread (the simulated GPIO
never invokes its registered callback), so a firing observes the flag
left by the previous events. -/
theorem c2_trigger_in_flight_mutex (s : MonitorState) (r : SensorRand)
    (q : Rat) (ts : Nat) (hs : s.storage_fails = false) :
    (s.button_pressed = false →
      (button_cycle_trace s r q ts).dropLast.all
        (fun t => t.button_pressed) = true
      ∧ ((button_cycle_trace s r q ts).getLastD s).button_pressed = false)
    ∧ (s.button_pressed = true →
      button_callback s r q ts = .ok (s, [])
      ∧ button_cycle_trace s r q ts = [s]) := by
  constructor
  · intro h
    unfold button_cycle_trace read_sensors check_vitals save_to_database
      send_to_cloud flash_green
    simp only [h, Bool.false_eq_true, if_false]
    split_ifs <;> simp_all
  · intro h
    unfold button_cycle_trace button_callback
    simp [h]

/-- C2 witness: concrete instances of both halves at the initial state
(storage healthy): the in-cycle states all hold the flag, the completed
cycle clears it, and a firing on a state already in flight is a no-op. -/
theorem c2_witness :
    ((button_cycle_trace (initState false) ⟨0, 0, 0, 0⟩ 1 5).dropLast.all
        (fun t => t.button_pressed) = true
      ∧ ((button_cycle_trace (initState false) ⟨0, 0, 0, 0⟩ 1
            5).getLastD (initState false)).button_pressed = false)
    ∧ (button_callback { initState false with button_pressed := true }
          ⟨0, 0, 0, 0⟩ 1 5
        = .ok ({ initState false with button_pressed := true }, [])) :=
  ⟨(c2_trigger_in_flight_mutex (initState false) ⟨0, 0, 0, 0⟩ 1 5 rfl).1 rfl,
   ((c2_trigger_in_flight_mutex
      { initState false with button_pressed := true }
      ⟨0, 0, 0, 0⟩ 1 5 rfl).2 rfl).1⟩

/-- C10: when a manual-trigger cycle completes with a successful uplink,
the acknowledgement flash's last write turns the green (normal) LED off;
hence if the cycle classified the reading as Normal, both LEDs are off at
the end of the cycle even though `current_status` is Normal. -/
theorem c10_ack_flash_leaves_leds_off (s : MonitorState) (r : SensorRand)
    (q : Rat) (ts : Nat) (s2 : MonitorState) (acts : List Action)
    (hb : s.button_pressed = false) (hst : s.storage_fails = false)
    (hq : (1 : Rat)/10 < q)
    (h : button_callback s r q ts = .ok (s2, acts)) :
    s2.leds.green = false
    ∧ (s2.current_status = Status.Normal →
        s2.leds.red = false ∧ s2.leds.green = false) := by
  unfold button_callback read_sensors check_vitals save_to_database
    send_to_cloud flash_green at h
  simp only [hb, Bool.false_eq_true, if_false] at h
  split_ifs at h
  all_goals simp_all
  all_goals (obtain ⟨h1, h2⟩ := h; subst h1; simp)

unseal Rat.add Rat.mul Rat.inv Rat.sub in
/-- C10 witness: the concrete successful manual cycle from the initial
state (whose reading 75/98 classifies Normal) ends with both LEDs off
while `current_status` is Normal. -/
theorem c10_witness :
    ackEndState.leds.green = false
    ∧ (ackEndState.current_status = Status.Normal →
        ackEndState.leds.red = false ∧ ackEndState.leds.green = false) :=
  c10_ack_flash_leaves_leds_off (initState false) ⟨0, 0, 0, 0⟩ 1 5 ackEndState
    [.sampleAct, .persistAct, .uplinkAct, .flashAct] rfl rfl (by decide)
    (by decide)

/-- C6 counterexample: at the process's start state (an empty store, so
no readings in the summarised window), a summary tick performs zero
uplink calls — not exactly one as the claim states. -/
theorem c6_counterexample :
    summaryUplinks (daily_summary (initState false) 0 1) = some 0
    ∧ summaryUplinks (daily_summary (initState false) 0 1) ≠ some 1 := by
  decide

/-- C6 (amended): a summary tick calls the uplink exactly once when at
least one reading is stored in the summarised day, and zero times when
the window is empty (the summary block is skipped); every completed
manual-trigger cycle calls it exactly once. -/
theorem c6_uplink_once_when_data (s : MonitorState) (today : Nat) (q : Rat)
    (hs : s.storage_fails = false) :
    (0 < (todays s.db today).length →
      summaryUplinks (daily_summary s today q) = some 1)
    ∧ ((todays s.db today).length = 0 →
      summaryUplinks (daily_summary s today q) = some 0)
    ∧ (∀ r nr ts s2 acts, s.button_pressed = false →
        button_callback s r nr ts = .ok (s2, acts) →
        countUplinks acts = 1) := by
  refine ⟨?_, ?_, ?_⟩
  · intro h
    unfold daily_summary daily_agg
    simp [hs, h, summaryUplinks]
  · intro h
    unfold daily_summary daily_agg
    simp [hs, h, summaryUplinks]
  · intro r nr ts s2 acts hb h
    unfold button_callback read_sensors check_vitals save_to_database
      send_to_cloud flash_green at h
    simp only [hb, Bool.false_eq_true, if_false] at h
    split_ifs at h
    all_goals simp_all
    all_goals (obtain ⟨h1, h2⟩ := h; subst h2; rfl)

unseal Rat.add Rat.mul Rat.inv Rat.sub in
/-- C6 witness: one uplink call for a summary over a store with one
reading of the current day; zero for the empty initial store; and the
concrete completed manual cycle performs exactly one uplink. -/
theorem c6_witness :
    summaryUplinks (daily_summary ackEndState 0 1) = some 1
    ∧ summaryUplinks (daily_summary (initState false) 0 1) = some 0
    ∧ countUplinks [.sampleAct, .persistAct, .uplinkAct, .flashAct] = 1 :=
  ⟨(c6_uplink_once_when_data ackEndState 0 1 rfl).1 (by decide),
   (c6_uplink_once_when_data (initState false) 0 1 rfl).2.1 (by decide),
   (c6_uplink_once_when_data (initState false) 0 1 rfl).2.2 ⟨0, 0, 0, 0⟩ 1 5
     ackEndState [.sampleAct, .persistAct, .uplinkAct, .flashAct] rfl
     (by decide)⟩

unseal Rat.add Rat.mul Rat.inv Rat.sub in
/-- C7 counterexample: in the reachable state `driftedState` the store
holds exactly one reading of the current day and it is Normal, yet the
summary reports an alert count of 1 (the in-memory counter, bumped by a
periodic-loop Alert that was never persisted); the store-derived alert
count of the window is 0. -/
theorem c7_counterexample :
    summaryReported (daily_summary driftedState 0 1) = some (some 1)
    ∧ storeAlertCount driftedState.db 0 = 0 := by
  decide

/-- C7 (amended): the alert count printed by `daily_summary` is the
process-lifetime in-memory `alert_count` counter (incremented at every
classification, persisted or not), not a value derived from the store;
the dashboard's `/api/statistics`, by contrast, does compute its alert
count from the stored rows of the current day. -/
theorem c7_alert_count_is_counter (s : MonitorState) (today : Nat) (q : Rat)
    (hs : s.storage_fails = false) :
    (0 < (todays s.db today).length →
      summaryReported (daily_summary s today q) = some (some s.alert_count))
    ∧ (∀ db td, (get_statistics db td).today.alert_count
        = storeAlertCount db td) := by
  constructor
  · intro h
    unfold daily_summary daily_agg
    simp [hs, h, summaryReported]
  · intro db td
    unfold get_statistics storeAlertCount
    by_cases h : (todays db td).isEmpty
    · simp [h, List.isEmpty_iff.mp h]
    · simp [h]

unseal Rat.add Rat.mul Rat.inv Rat.sub in
/-- C7 witness: the amended statement instantiated at the reachable state
`driftedState` (summary reports the in-memory counter) and at a concrete
store (dashboard alert count is store-derived). -/
theorem c7_witness :
    summaryReported (daily_summary driftedState 0 1)
      = some (some driftedState.alert_count)
    ∧ (get_statistics twoRowStore 0).today.alert_count
      = storeAlertCount twoRowStore 0 :=
  ⟨(c7_alert_count_is_counter driftedState 0 1 (by decide)).1 (by decide),
   (c7_alert_count_is_counter driftedState 0 1 (by decide)).2 twoRowStore 0⟩

unseal Rat.add Rat.mul Rat.inv Rat.sub in
/-- C5 counterexample: with the backing medium unavailable, a monitoring
iteration whose 60-second summary cadence fires terminates the whole loop
with the uncaught `StorageError` (the second queued tick is never
executed), and a manual cycle's append failure likewise propagates out of
`button_callback`; the loop does not log-and-continue as the claim
states. -/
theorem c5_counterexample :
    monitor_run (initState true)
      [⟨⟨0, 0, 0, 0⟩, true, 0, 1⟩, ⟨⟨0, 0, 0, 0⟩, false, 0, 1⟩]
      = .error .unavailable
    ∧ button_callback (initState true) ⟨0, 0, 0, 0⟩ 1 5
      = .error .unavailable := by
  decide

/-- C5 (amended): a `StorageError` is not caught anywhere: a summary-tick
query failure propagates out of `monitor_loop` and terminates the
sampling loop (the remaining ticks never run), and an append failure
during a manual cycle propagates out of `button_callback`, aborting the
cycle and leaving `button_pressed` permanently set. -/
theorem c5_storage_failure_uncaught (s : MonitorState)
    (hs : s.storage_fails = true) :
    (∀ t rest, t.doSummary = true →
      monitor_run s (t :: rest) = .error .unavailable)
    ∧ (∀ r q ts, s.button_pressed = false →
        button_callback s r q ts = .error .unavailable
        ∧ ((button_cycle_trace s r q ts).getLastD s).button_pressed
            = true) := by
  constructor
  · intro t rest ht
    unfold monitor_run monitor_tick daily_summary sampling_step
      read_sensors check_vitals
    simp only [ht, if_true]
    split_ifs <;> simp_all
  · intro r q ts hb
    unfold button_callback button_cycle_trace read_sensors check_vitals
      save_to_database
    simp only [hb, Bool.false_eq_true, if_false]
    split_ifs <;> simp_all

/-- C5 witness: the amended statement instantiated at the initial state
with a failing medium and one summary-firing tick. -/
theorem c5_witness :
    monitor_run (initState true) [⟨⟨0, 0, 0, 0⟩, true, 0, 1⟩]
      = .error .unavailable
    ∧ button_callback (initState true) ⟨0, 0, 0, 0⟩ 1 5
      = .error .unavailable :=
  ⟨(c5_storage_failure_uncaught (initState true) rfl).1
      ⟨⟨0, 0, 0, 0⟩, true, 0, 1⟩ [] rfl,
   ((c5_storage_failure_uncaught (initState true) rfl).2
      ⟨0, 0, 0, 0⟩ 1 5 rfl).1⟩

/-- C8: an aggregate over a window with no matching rows (in particular
over an empty store) returns count 0 and zeroed/neutral values: the
dashboard statistics coalesce every NULL aggregate to 0, and the daily
aggregate row is count 0 with NULL min/max/avg; both operations are total
functions, so they never fail or raise. -/
theorem c8_empty_aggregate_zeroed (db : List Reading) (today : Nat)
    (h : todays db today = []) :
    (get_statistics db today).today =
      { total_readings := 0, avg_hr := 0, min_hr := 0, max_hr := 0
      , avg_spo2 := 0, min_spo2 := 0, max_spo2 := 0, alert_count := 0 }
    ∧ daily_agg db today =
      { avg_hr := none, avg_spo2 := none, count := 0, min_hr := none
      , max_hr := none, min_spo2 := none, max_spo2 := none } := by
  have hr1 : round1 0 = 0 := by norm_num [round1, roundHalfEven]
  unfold get_statistics daily_agg
  simp [h, sqlAvg, sqlMin, sqlMax, hr1]

/-- C8 witness: a store holding one reading of day 0 has no rows matching
day 1; the statistics and the daily aggregate row are zeroed/NULL. -/
theorem c8_witness :
    (get_statistics boundaryStore 1).today =
      { total_readings := 0, avg_hr := 0, min_hr := 0, max_hr := 0
      , avg_spo2 := 0, min_spo2 := 0, max_spo2 := 0, alert_count := 0 }
    ∧ daily_agg boundaryStore 1 =
      { avg_hr := none, avg_spo2 := none, count := 0, min_hr := none
      , max_hr := none, min_spo2 := none, max_spo2 := none } :=
  c8_empty_aggregate_zeroed boundaryStore 1 (by decide)

/-- Occurrence count of a row is invariant under reversal. -/
theorem countRow_reverse (x : Reading) (l : List Reading) :
    countRow x l.reverse = countRow x l := by
  unfold countRow
  rw [List.filter_reverse, List.length_reverse]

/-- Occurrence count of a row is invariant under permutation. -/
theorem countRow_perm {l l2 : List Reading} (h : l.Perm l2) (x : Reading) :
    countRow x l = countRow x l2 :=
  (h.filter _).length_eq

/-- Filtering by a predicate the row satisfies does not change its
occurrence count. -/
theorem countRow_filter (x : Reading) (p : Reading → Bool) (l : List Reading)
    (hx : p x = true) :
    countRow x (l.filter p) = countRow x l := by
  unfold countRow
  rw [List.filter_filter]
  refine congrArg List.length (List.filter_congr ?_)
  intro y hy
  by_cases h : y = x
  · subst h; simp [hx]
  · simp [h]

/-- Appending a row adds one to its occurrence count. -/
theorem countRow_append_self (x : Reading) (l : List Reading) :
    countRow x (l ++ [x]) = countRow x l + 1 := by
  unfold countRow
  rw [List.filter_append]
  simp

/-- A row absent from a list has occurrence count zero. -/
theorem countRow_eq_zero (x : Reading) (l : List Reading) (h : x ∉ l) :
    countRow x l = 0 := by
  unfold countRow
  rw [List.length_eq_zero, List.filter_eq_nil_iff]
  intro a ha
  simp only [decide_eq_true_eq]
  exact fun e => h (e ▸ ha)

/-- The dashboard history (reverse of the DESC query) is sorted by
ascending timestamp. -/
theorem get_history_sorted_asc (db : List Reading) (now hours limit : Nat) :
    List.Sorted (fun a b : Reading => a.timestamp ≤ b.timestamp)
      (get_history db now hours limit) := by
  unfold get_history
  refine List.pairwise_reverse.mpr ?_
  exact List.Pairwise.sublist (List.take_sublist _ _)
    (List.sorted_insertionSort tsDesc _)

/-- C3 counterexample: `get_recent_data` (the engine's windowed read)
returns rows ordered descending, not chronologically ascending — on a
two-row store with timestamps 100 and 200 the result is [200, 100];
moreover a reading with timestamp exactly `now - since` (3600 at
`now = 7200`, `since` = 1 hour) is excluded by the strict lower bound,
though the claim's closed interval `[now-since, now]` contains it. -/
theorem c3_counterexample :
    ¬ List.Sorted (fun a b : Reading => a.timestamp ≤ b.timestamp)
        (get_recent_data twoRowStore 200 1)
    ∧ get_recent_data boundaryStore 7200 1 = [] := by
  constructor
  · decide
  · decide

/-- C3 (amended): the engine's `get_recent_data` returns the up-to-100
most recent readings with timestamp strictly after `now - since`, ordered
descending; the dashboard's `get_history` reverses the same query, so it
is ordered chronologically ascending, and an append followed immediately
by a covering windowed read includes the appended reading exactly once
provided the window holds at most `limit` rows; ids assigned by
successive appends are strictly increasing (each append stores id
`next_id` and increments it, preserving the all-ids-below-`next_id`
invariant). -/
theorem c3_query_window_amended (db : List Reading) (now hours limit : Nat)
    (x : Reading) :
    List.Sorted (fun a b : Reading => a.timestamp ≤ b.timestamp)
      (get_history db now hours limit)
    ∧ ((∀ rr ∈ db, rr.id ≠ x.id) → inWindow now hours x = true →
        ((db ++ [x]).filter (inWindow now hours)).length ≤ limit →
        countRow x (get_history (db ++ [x]) now hours limit) = 1)
    ∧ (∀ s ts hr spo2 st s1,
        save_to_database s ts hr spo2 st = Except.ok s1 →
        s1.db.map (·.id) = s.db.map (·.id) ++ [s.next_id]
        ∧ s1.next_id = s.next_id + 1
        ∧ ((∀ rr ∈ s.db, rr.id < s.next_id) →
            ∀ rr ∈ s1.db, rr.id < s1.next_id)) := by
  refine ⟨get_history_sorted_asc db now hours limit, ?_, ?_⟩
  · intro hid hin hlen
    unfold get_history
    rw [countRow_reverse]
    have hperm := List.perm_insertionSort tsDesc
      ((db ++ [x]).filter (inWindow now hours))
    have hlen2 :
        (((db ++ [x]).filter (inWindow now hours)).insertionSort
          tsDesc).length ≤ limit := by
      rw [hperm.length_eq]; exact hlen
    rw [List.take_of_length_le hlen2, countRow_perm hperm,
      countRow_filter x _ _ hin, countRow_append_self,
      countRow_eq_zero x db (fun hmem => hid x hmem rfl)]
  · intro s ts hr spo2 st s1 h
    unfold save_to_database at h
    split_ifs at h with hsf
    injection h with h1
    subst h1
    refine ⟨by simp, rfl, ?_⟩
    intro hlt rr hmem
    simp only [List.mem_append, List.mem_singleton] at hmem
    rcases hmem with hold | hnew
    · exact Nat.lt_trans (hlt rr hold) (Nat.lt_succ_self _)
    · subst hnew
      exact Nat.lt_succ_self _

/-- C3 witness: at a concrete two-row store, the dashboard history is
ascending, and appending a third in-window reading with a fresh id makes
it appear exactly once in the covering windowed read. -/
theorem c3_witness :
    List.Sorted (fun a b : Reading => a.timestamp ≤ b.timestamp)
      (get_history twoRowStore 200 1 100)
    ∧ countRow ⟨3, 150, 80, 97, .Normal⟩
        (get_history (twoRowStore ++ [⟨3, 150, 80, 97, .Normal⟩])
          200 1 100) = 1 :=
  ⟨(c3_query_window_amended twoRowStore 200 1 100
      ⟨3, 150, 80, 97, .Normal⟩).1,
   (c3_query_window_amended twoRowStore 200 1 100
      ⟨3, 150, 80, 97, .Normal⟩).2.1 (by decide) (by decide) (by decide)⟩

end HealthMonitor
